import Mathlib

/-!
Verification of the MSSQL dialect module of geoalchemy2
(`geoalchemy2/admin/dialects/mssql.py`).

The module has two independent responsibilities:

* `reflect_geometry_column`: given the results of two information-schema
  queries, classify a reflected column as a spatial column and rewrite its
  type descriptor in `column_info`, or leave it untouched.
* compilation rules for the mssql dialect: `register_mssql_mapping`
  installs method-call style rendering rules, and the four
  `ST_GeomFrom{Text,EWKT,WKB,EWKB}` functions get bespoke rules with
  srid defaulting (`_compile_GeomFromText_MsSql`,
  `_compile_GeomFromWKB_MsSql`).

The embedding models the database as the results the two queries return
(`DBState`), the mutable `column_info` dict as a structure, and the
SQLAlchemy compiler callback `compiler.process` as an opaque function
argument.
-/

namespace GeoAlchemy2.MsSql

/-- The spatial type descriptor constructed by reflection: mirrors the
keyword arguments of the `Geometry(...)` constructor call in
`reflect_geometry_column`. -/
structure GeomDescr where
  geometry_type : String
  srid : Int
  spatial_index : Bool
  nullable : Bool
  spatial_index_reflected : Bool
  deriving Repr, DecidableEq

/-- The declared type object stored under `column_info["type"]`.  The
guard in `reflect_geometry_column` tests
`isinstance(column_info.get("type"), (Geometry, NullType))`, so the model
distinguishes `Geometry` instances, `NullType` instances, and everything
else (other SQLAlchemy types, `None`, the `Geography` type, ...). -/
inductive ColType where
  | nullType : ColType
  | geometry : GeomDescr → ColType
  | otherType : String → ColType
  deriving Repr, DecidableEq

/-- The mutable `column_info` record handed to `reflect_geometry_column`. -/
structure ColumnInfo where
  name : String
  type : ColType
  deriving Repr, DecidableEq

/-- Error raised by SQLAlchemy's `.one()` when the result does not have
exactly one row. -/
inductive QueryErr where
  | noResultFound : QueryErr
  | multipleResultsFound : Nat → QueryErr
  deriving Repr, DecidableEq

/-- The two metadata queries `reflect_geometry_column` can issue, in
source order: the INFORMATION_SCHEMA.COLUMNS probe and the
INFORMATION_SCHEMA.STATISTICS probe. -/
inductive QueryId where
  | geometryTypeQuery : QueryId
  | hasIndexQuery : QueryId
  deriving Repr, DecidableEq

/-- The database, modelled by the results the two queries return.
`typeQuery` models `.one()` on the first query: either exactly one row
`(DATA_TYPE, SRS_ID, IS_NULLABLE)` or a cardinality error.  `indexQuery`
models `.scalar()` on the second query: the first INDEX_TYPE value, or
`none` when the result set is empty (Python `None`). -/
structure DBState where
  typeQuery : Except QueryErr (String × Int × String)
  indexQuery : Option String
  deriving Repr

/-- `_POSSIBLE_TYPES` from the source: the eight recognized native
spatial type names, all lowercase. -/
def _POSSIBLE_TYPES : List String :=
  [ "geometry",
    "point",
    "linestring",
    "polygon",
    "multipoint",
    "multilinestring",
    "multipolygon",
    "geometrycollection" ]

/-- Python `str(...)` applied to the `.scalar()` result: `str(None)` is
the string `"None"`, `str` of a string is itself. -/
def pyStrOfScalar : Option String → String
  | none => "None"
  | some s => s

/-- Python `str.lower()`: lowercase every character (the values compared
in the source are ASCII, where per-character lowercasing matches). -/
def pyLower (s : String) : String := ⟨s.data.map Char.toLower⟩

/-- Python `str.upper()`: uppercase every character. -/
def pyUpper (s : String) : String := ⟨s.data.map Char.toUpper⟩

/-- Result of one call to `reflect_geometry_column`: which queries were
executed, the exception propagated (if any), and the final state of the
`column_info` record (unchanged when the function returned early or
raised, since the only mutation is the very last statement). -/
structure ReflectOutcome where
  queries : List QueryId
  error : Option QueryErr
  column_info : ColumnInfo
  deriving Repr, DecidableEq

/-- `reflect_geometry_column(inspector, table, column_info)` from the
source, with the two query results supplied by `db`:

1. return unless the current type is a `Geometry` or `NullType` instance;
2. run the INFORMATION_SCHEMA.COLUMNS query, `.one()` row
   `(geometry_type, srid, nullable_str)` (a cardinality error
   propagates);
3. `is_nullable = str(nullable_str).lower() == "yes"`;
4. return if `geometry_type not in _POSSIBLE_TYPES`;
5. run the INFORMATION_SCHEMA.STATISTICS query,
   `spatial_index = str(scalar).lower() == "spatial"`;
6. assign a fresh `Geometry` descriptor into `column_info["type"]`. -/
def reflect_geometry_column (db : DBState) (column_info : ColumnInfo) :
    ReflectOutcome :=
  match column_info.type with
  | ColType.otherType _ => ⟨[], none, column_info⟩
  | _ =>
    match db.typeQuery with
    | Except.error e => ⟨[QueryId.geometryTypeQuery], some e, column_info⟩
    | Except.ok (geometry_type, srid, nullable_str) =>
      let is_nullable := pyLower nullable_str == "yes"
      if geometry_type ∈ _POSSIBLE_TYPES then
        let spatial_index_res := db.indexQuery
        let spatial_index := pyLower (pyStrOfScalar spatial_index_res) == "spatial"
        ⟨[QueryId.geometryTypeQuery, QueryId.hasIndexQuery], none,
          { column_info with
            type := ColType.geometry
              { geometry_type := pyUpper geometry_type
                srid := srid
                spatial_index := spatial_index
                nullable := is_nullable
                spatial_index_reflected := true } }⟩
      else
        ⟨[QueryId.geometryTypeQuery], none, column_info⟩

/-- A Python literal value bound as the first argument of a
`ST_GeomFromWKB`/`ST_GeomFromEWKB` call: either an immutable `bytes`
object or a mutable `memoryview`, both carrying a byte sequence
(`memoryview.tobytes()` yields a `bytes` with the same content). -/
inductive PyValue where
  | pybytes : List Nat → PyValue
  | pymemoryview : List Nat → PyValue
  deriving Repr, DecidableEq

/-- One element of `element.clauses`: a bound-parameter node whose
`.value` field holds the literal. -/
structure Clause where
  value : PyValue
  deriving Repr, DecidableEq

/-- The function-invocation expression node handed to a compilation
rule: its `identifier` display-name field, its argument clauses, and the
`srid` of its associated result type (`element.type.srid`). -/
structure GeomElement where
  identifier : String
  clauses : List Clause
  type_srid : Int
  deriving Repr, DecidableEq

/-- `_compile_GeomFromText_MsSql(element, compiler, **kw)` from the
source.  `compiler.process(element.clauses, **kw)` is modelled by the
opaque-function argument `process`.  Returns the rendered SQL together
with the element as mutated (the `identifier` field is overwritten). -/
def _compile_GeomFromText_MsSql (process : List Clause → String)
    (element : GeomElement) : String × GeomElement :=
  let element := { element with identifier := "geography::STGeomFromText" }
  let compiled := process element.clauses
  let srid := element.type_srid
  if srid > 0 then
    (element.identifier ++ "(" ++ compiled ++ ", " ++ toString srid ++ ")", element)
  else
    (element.identifier ++ "(" ++ compiled ++ ", 4326)", element)

/-- `_compile_GeomFromWKB_MsSql(element, compiler, **kw)` from the
source.  `list(element.clauses)[0].value` raises `IndexError` on an
empty clause list, modelled by `none`; a `memoryview` first value is
replaced by `tobytes()` before `compiler.process` runs. -/
def _compile_GeomFromWKB_MsSql (process : List Clause → String)
    (element : GeomElement) : Option (String × GeomElement) :=
  let element := { element with identifier := "geography::STGeomFromWKB" }
  match element.clauses with
  | [] => none
  | c :: rest =>
    let c :=
      match c.value with
      | PyValue.pymemoryview d => { c with value := PyValue.pybytes d }
      | _ => c
    let element := { element with clauses := c :: rest }
    let compiled := process element.clauses
    let srid := element.type_srid
    if srid > 0 then
      some (element.identifier ++ "(" ++ compiled ++ ", " ++ toString srid ++ ")",
        element)
    else
      some (element.identifier ++ "(" ++ compiled ++ ")", element)

/-- `_MSSQL_ST_GeomFromText`, registered for `ST_GeomFromText` on the
mssql dialect: delegates to `_compile_GeomFromText_MsSql`. -/
def _MSSQL_ST_GeomFromText (process : List Clause → String)
    (element : GeomElement) : String × GeomElement :=
  _compile_GeomFromText_MsSql process element

/-- `_MSSQL_ST_GeomFromEWKT`, registered for `ST_GeomFromEWKT` on the
mssql dialect: delegates to `_compile_GeomFromText_MsSql`. -/
def _MSSQL_ST_GeomFromEWKT (process : List Clause → String)
    (element : GeomElement) : String × GeomElement :=
  _compile_GeomFromText_MsSql process element

/-- `_MSSQL_ST_GeomFromWKB`, registered for `ST_GeomFromWKB` on the
mssql dialect: delegates to `_compile_GeomFromWKB_MsSql`. -/
def _MSSQL_ST_GeomFromWKB (process : List Clause → String)
    (element : GeomElement) : Option (String × GeomElement) :=
  _compile_GeomFromWKB_MsSql process element

/-- `_MSSQL_ST_GeomFromEWKB`, registered for `ST_GeomFromEWKB` on the
mssql dialect: delegates to `_compile_GeomFromWKB_MsSql`. -/
def _MSSQL_ST_GeomFromEWKB (process : List Clause → String)
    (element : GeomElement) : Option (String × GeomElement) :=
  _compile_GeomFromWKB_MsSql process element

/-- A rendering rule as registered by the `compiles` decorator: given
the recursively compiled argument text, produce the SQL text. -/
abbrev RenderRule := String → String

/-- SQLAlchemy's dialect-keyed compilation dispatch table: abstract
function class name and dialect name to the registered rule, `none` when
no rule is registered for that pair. -/
abbrev CompilerRegistry := String → String → Option RenderRule

/-- The `compiles(cls, "dialect")(fn)` decorator: overwrite the entry
for `(cls, dialect)` with `rule`, leaving every other entry alone. -/
def compilesRegister (cls dialect : String) (rule : RenderRule)
    (reg : CompilerRegistry) : CompilerRegistry :=
  fun c d => if c = cls ∧ d = dialect then some rule else reg c d

/-- The inner `_compile_mssql(element, compiler, **kw)` closure of
`_compiles_mssql`: renders the compiled clauses parenthesized, followed
by a call of the native method `fn`. -/
def _compile_mssql (fn : String) (processedClauses : String) : String :=
  "(" ++ processedClauses ++ ")." ++ fn ++ "()"

/-- `_compiles_mssql(cls, fn)` from the source: registers
`_compile_mssql` for `(cls, "mssql")`. -/
def _compiles_mssql (cls fn : String) (reg : CompilerRegistry) :
    CompilerRegistry :=
  compilesRegister cls "mssql" (_compile_mssql fn) reg

/-- `register_mssql_mapping(mapping)` from the source: registers every
entry of the mapping via `_compiles_mssql`.  A Python dict is modelled
by an association list whose keys are distinct. -/
def register_mssql_mapping (mapping : List (String × String))
    (reg : CompilerRegistry) : CompilerRegistry :=
  mapping.foldl (fun r p => _compiles_mssql p.1 p.2 r) reg

/-- `_MSSQL_FUNCTIONS` from the source: the mapping registered at module
load. -/
def _MSSQL_FUNCTIONS : List (String × String) :=
  [("ST_AsBinary", "STAsBinary"), ("ST_AsEWKB", "STAsBinary")]

/-- Compilation of an invocation of the abstract function `cls` under
dialect `dialect`: look the rule up in the dispatch table and apply it to
the recursively compiled argument text. -/
def compileFunctionCall (reg : CompilerRegistry) (dialect cls : String)
    (processedArgs : String) : Option String :=
  (reg cls dialect).map (fun rule => rule processedArgs)

/-- Helper: when the guard passes, the metadata query succeeds and the
native type name is recognized, `reflect_geometry_column` runs both
queries and assigns the fully-determined descriptor. -/
theorem reflect_recognized_eq (db : DBState) (ci : ColumnInfo)
    (name : String) (srid : Int) (ns : String)
    (hg : ci.type = ColType.nullType ∨ ∃ g, ci.type = ColType.geometry g)
    (hq : db.typeQuery = Except.ok (name, srid, ns))
    (hmem : name ∈ _POSSIBLE_TYPES) :
    reflect_geometry_column db ci =
      ⟨[QueryId.geometryTypeQuery, QueryId.hasIndexQuery], none,
        { ci with
          type := ColType.geometry
            { geometry_type := pyUpper name
              srid := srid
              spatial_index := pyLower (pyStrOfScalar db.indexQuery) == "spatial"
              nullable := pyLower ns == "yes"
              spatial_index_reflected := true } }⟩ := by
  rcases hg with h | ⟨g, h⟩ <;>
    simp only [reflect_geometry_column, h, hq, if_pos hmem]

/-- Helper: when the guard passes, the metadata query succeeds but the
native type name is not in `_POSSIBLE_TYPES`, the function returns after
the first query with nothing raised and `column_info` untouched. -/
theorem reflect_unrecognized_eq (db : DBState) (ci : ColumnInfo)
    (name : String) (srid : Int) (ns : String)
    (hg : ci.type = ColType.nullType ∨ ∃ g, ci.type = ColType.geometry g)
    (hq : db.typeQuery = Except.ok (name, srid, ns))
    (hmem : name ∉ _POSSIBLE_TYPES) :
    reflect_geometry_column db ci = ⟨[QueryId.geometryTypeQuery], none, ci⟩ := by
  rcases hg with h | ⟨g, h⟩ <;>
    simp only [reflect_geometry_column, h, hq, if_neg hmem]

/-- C1 counterexample: the metadata query returns the native type name
`"POINT"`, which matches the recognized name `"point"` under
case-insensitive comparison, yet no spatial type descriptor is assigned:
the column's type is still the placeholder, because the membership test
in the source is case-sensitive. -/
theorem C1_counterexample :
    pyLower "POINT" ∈ _POSSIBLE_TYPES ∧
    (reflect_geometry_column
        ⟨Except.ok ("POINT", 4326, "YES"), some "SPATIAL"⟩
        ⟨"geom", ColType.nullType⟩).column_info.type = ColType.nullType := by
  constructor
  · decide
  · rfl

/-- C1 (amended): for every call in which the guard passes and the
metadata query returns a native type name that is exactly one of the
eight lowercase recognized names (the membership test is
case-sensitive), a new spatial type descriptor is assigned to
`column_info["type"]` whose geometry subtype equals the uppercased
native type name. -/
theorem C1_recognized_assigns_uppercased_subtype (db : DBState)
    (ci : ColumnInfo) (name : String) (srid : Int) (ns : String)
    (hg : ci.type = ColType.nullType ∨ ∃ g, ci.type = ColType.geometry g)
    (hq : db.typeQuery = Except.ok (name, srid, ns))
    (hmem : name ∈ _POSSIBLE_TYPES) :
    ∃ g, (reflect_geometry_column db ci).column_info.type = ColType.geometry g ∧
      g.geometry_type = pyUpper name := by
  rw [reflect_recognized_eq db ci name srid ns hg hq hmem]
  exact ⟨_, rfl, rfl⟩

/-- C1 witness: reflecting a `NullType` column whose native type is
`"point"` yields a descriptor with subtype `"POINT"`. -/
theorem C1_witness :
    ∃ g, (reflect_geometry_column
        ⟨Except.ok ("point", 4326, "YES"), some "SPATIAL"⟩
        ⟨"geom", ColType.nullType⟩).column_info.type = ColType.geometry g ∧
      g.geometry_type = pyUpper "point" :=
  C1_recognized_assigns_uppercased_subtype
    ⟨Except.ok ("point", 4326, "YES"), some "SPATIAL"⟩
    ⟨"geom", ColType.nullType⟩ "point" 4326 "YES"
    (Or.inl rfl) rfl (by decide)

/-- C6: when the probed native type name is not in the recognized
enumeration, `reflect_geometry_column` returns without raising and
`column_info` is left unchanged. -/
theorem C6_unrecognized_leaves_column_unchanged (db : DBState)
    (ci : ColumnInfo) (name : String) (srid : Int) (ns : String)
    (hq : db.typeQuery = Except.ok (name, srid, ns))
    (hmem : name ∉ _POSSIBLE_TYPES) :
    (reflect_geometry_column db ci).error = none ∧
    (reflect_geometry_column db ci).column_info = ci := by
  match hty : ci.type with
  | ColType.otherType s =>
    simp [reflect_geometry_column, hty]
  | ColType.nullType =>
    rw [reflect_unrecognized_eq db ci name srid ns (Or.inl hty) hq hmem]
    exact ⟨rfl, rfl⟩
  | ColType.geometry g =>
    rw [reflect_unrecognized_eq db ci name srid ns (Or.inr ⟨g, hty⟩) hq hmem]
    exact ⟨rfl, rfl⟩

/-- C6 witness: a native type name `"varchar"` leaves a `NullType`
column untouched and raises nothing. -/
theorem C6_witness :
    (reflect_geometry_column ⟨Except.ok ("varchar", 0, "YES"), none⟩
        ⟨"geom", ColType.nullType⟩).error = none ∧
    (reflect_geometry_column ⟨Except.ok ("varchar", 0, "YES"), none⟩
        ⟨"geom", ColType.nullType⟩).column_info = ⟨"geom", ColType.nullType⟩ :=
  C6_unrecognized_leaves_column_unchanged
    ⟨Except.ok ("varchar", 0, "YES"), none⟩ ⟨"geom", ColType.nullType⟩
    "varchar" 0 "YES" rfl (by decide)

/-- C7: when the column's declared type is neither `NullType` nor a
`Geometry` instance, `reflect_geometry_column` issues no query, raises
nothing and leaves `column_info` unchanged. -/
theorem C7_already_typed_column_untouched (db : DBState) (ci : ColumnInfo)
    (h1 : ci.type ≠ ColType.nullType)
    (h2 : ∀ g, ci.type ≠ ColType.geometry g) :
    reflect_geometry_column db ci = ⟨[], none, ci⟩ := by
  match hty : ci.type with
  | ColType.nullType => exact absurd hty h1
  | ColType.geometry g => exact absurd hty (h2 g)
  | ColType.otherType s => simp only [reflect_geometry_column, hty]

/-- C7 witness: a column already typed `varchar` is returned untouched
with no query issued, even though the metadata query result would have
classified it. -/
theorem C7_witness :
    reflect_geometry_column ⟨Except.ok ("point", 4326, "YES"), some "SPATIAL"⟩
        ⟨"geom", ColType.otherType "varchar"⟩ =
      ⟨[], none, ⟨"geom", ColType.otherType "varchar"⟩⟩ :=
  C7_already_typed_column_untouched
    ⟨Except.ok ("point", 4326, "YES"), some "SPATIAL"⟩
    ⟨"geom", ColType.otherType "varchar"⟩ (by decide) (fun g => by simp)

/-- C8: the constructed descriptor's nullability flag is `true` exactly
when the IS_NULLABLE value equals `"yes"` under case-insensitive
comparison (i.e. its lowercasing is the literal `"yes"`). -/
theorem C8_nullable_iff_yes (db : DBState) (ci : ColumnInfo)
    (name : String) (srid : Int) (ns : String)
    (hg : ci.type = ColType.nullType ∨ ∃ g, ci.type = ColType.geometry g)
    (hq : db.typeQuery = Except.ok (name, srid, ns))
    (hmem : name ∈ _POSSIBLE_TYPES) :
    ∃ g, (reflect_geometry_column db ci).column_info.type = ColType.geometry g ∧
      (g.nullable = true ↔ pyLower ns = "yes") := by
  rw [reflect_recognized_eq db ci name srid ns hg hq hmem]
  exact ⟨_, rfl, beq_iff_eq⟩

/-- C8 witness: IS_NULLABLE `"Yes"` yields `nullable = true`, and
IS_NULLABLE `"NO"` yields `nullable = false`. -/
theorem C8_witness :
    (∃ g, (reflect_geometry_column ⟨Except.ok ("point", 4326, "Yes"), none⟩
        ⟨"geom", ColType.nullType⟩).column_info.type = ColType.geometry g ∧
      g.nullable = true) ∧
    (∃ g, (reflect_geometry_column ⟨Except.ok ("point", 4326, "NO"), none⟩
        ⟨"geom", ColType.nullType⟩).column_info.type = ColType.geometry g ∧
      g.nullable = false) := by
  constructor
  · obtain ⟨g, hty, hiff⟩ := C8_nullable_iff_yes
      ⟨Except.ok ("point", 4326, "Yes"), none⟩ ⟨"geom", ColType.nullType⟩
      "point" 4326 "Yes" (Or.inl rfl) rfl (by decide)
    exact ⟨g, hty, hiff.mpr (by decide)⟩
  · obtain ⟨g, hty, hiff⟩ := C8_nullable_iff_yes
      ⟨Except.ok ("point", 4326, "NO"), none⟩ ⟨"geom", ColType.nullType⟩
      "point" 4326 "NO" (Or.inl rfl) rfl (by decide)
    cases hn : g.nullable with
    | false => exact ⟨g, hty, hn⟩
    | true => exact absurd (hiff.mp hn) (by decide)

/-- C9: the constructed descriptor's spatial-index flag is `true`
exactly when the index-statistics scalar is a present value equal to
`"spatial"` under case-insensitive comparison; an absent value (`none`,
Python `None`) or any other value yields `false`. -/
theorem C9_spatial_index_iff_spatial (db : DBState) (ci : ColumnInfo)
    (name : String) (srid : Int) (ns : String)
    (hg : ci.type = ColType.nullType ∨ ∃ g, ci.type = ColType.geometry g)
    (hq : db.typeQuery = Except.ok (name, srid, ns))
    (hmem : name ∈ _POSSIBLE_TYPES) :
    ∃ g, (reflect_geometry_column db ci).column_info.type = ColType.geometry g ∧
      (g.spatial_index = true ↔
        ∃ v, db.indexQuery = some v ∧ pyLower v = "spatial") := by
  rw [reflect_recognized_eq db ci name srid ns hg hq hmem]
  refine ⟨_, rfl, ?_⟩
  cases hix : db.indexQuery with
  | none =>
    simp only [pyStrOfScalar]
    constructor
    · intro h
      exact absurd (eq_of_beq h) (by decide)
    · rintro ⟨v, hv, _⟩
      exact absurd hv (by simp)
  | some v =>
    simp only [pyStrOfScalar]
    constructor
    · intro h
      exact ⟨v, rfl, eq_of_beq h⟩
    · rintro ⟨w, hw, hlow⟩
      cases Option.some.inj hw
      exact beq_iff_eq.mpr hlow

/-- C9 witness: an index-statistics value `"SPATIAL"` yields
`spatial_index = true`; an absent value yields `spatial_index = false`. -/
theorem C9_witness :
    (∃ g, (reflect_geometry_column
        ⟨Except.ok ("point", 4326, "YES"), some "SPATIAL"⟩
        ⟨"geom", ColType.nullType⟩).column_info.type = ColType.geometry g ∧
      g.spatial_index = true) ∧
    (∃ g, (reflect_geometry_column ⟨Except.ok ("point", 4326, "YES"), none⟩
        ⟨"geom", ColType.nullType⟩).column_info.type = ColType.geometry g ∧
      g.spatial_index = false) := by
  constructor
  · obtain ⟨g, hty, hiff⟩ := C9_spatial_index_iff_spatial
      ⟨Except.ok ("point", 4326, "YES"), some "SPATIAL"⟩
      ⟨"geom", ColType.nullType⟩ "point" 4326 "YES" (Or.inl rfl) rfl (by decide)
    exact ⟨g, hty, hiff.mpr ⟨"SPATIAL", rfl, by decide⟩⟩
  · obtain ⟨g, hty, hiff⟩ := C9_spatial_index_iff_spatial
      ⟨Except.ok ("point", 4326, "YES"), none⟩
      ⟨"geom", ColType.nullType⟩ "point" 4326 "YES" (Or.inl rfl) rfl (by decide)
    cases hs : g.spatial_index with
    | false => exact ⟨g, hty, hs⟩
    | true =>
      obtain ⟨v, hv, _⟩ := hiff.mp hs
      exact absurd hv (by simp)

/-- C10: when the metadata query does not return exactly one row, the
underlying query-result error is propagated unmodified, the second query
is never issued, and `column_info` is left unchanged. -/
theorem C10_cardinality_error_propagates (db : DBState) (ci : ColumnInfo)
    (e : QueryErr)
    (hg : ci.type = ColType.nullType ∨ ∃ g, ci.type = ColType.geometry g)
    (hq : db.typeQuery = Except.error e) :
    reflect_geometry_column db ci = ⟨[QueryId.geometryTypeQuery], some e, ci⟩ := by
  rcases hg with h | ⟨g, h⟩ <;> simp only [reflect_geometry_column, h, hq]

/-- C10 witness: a zero-row metadata result propagates `noResultFound`
and leaves the column's `NullType` placeholder in place. -/
theorem C10_witness :
    reflect_geometry_column ⟨Except.error QueryErr.noResultFound, none⟩
        ⟨"geom", ColType.nullType⟩ =
      ⟨[QueryId.geometryTypeQuery], some QueryErr.noResultFound,
        ⟨"geom", ColType.nullType⟩⟩ :=
  C10_cardinality_error_propagates ⟨Except.error QueryErr.noResultFound, none⟩
    ⟨"geom", ColType.nullType⟩ QueryErr.noResultFound (Or.inl rfl) rfl

/-- Helper: string concatenation is associative (used to normalize the
rendered SQL text). -/
theorem str_append_assoc (a b c : String) : a ++ b ++ c = a ++ (b ++ c) := by
  rcases a with ⟨la⟩
  rcases b with ⟨lb⟩
  rcases c with ⟨lc⟩
  show String.mk (la ++ lb ++ lc) = String.mk (la ++ (lb ++ lc))
  rw [List.append_assoc]

/-- C2: under the mssql dialect, both from-text functions render as
`geography::STGeomFromText(<compiled arguments>, <srid>)`, where
`<srid>` is the expression type's declared reference-system id when that
id is positive, and the literal `4326` otherwise. -/
theorem C2_fromtext_renders_srid_defaulted (process : List Clause → String)
    (element : GeomElement) :
    (_MSSQL_ST_GeomFromText process element).1 =
      "geography::STGeomFromText(" ++ process element.clauses ++ ", " ++
        (if element.type_srid > 0 then toString element.type_srid else "4326") ++
        ")" ∧
    (_MSSQL_ST_GeomFromEWKT process element).1 =
      "geography::STGeomFromText(" ++ process element.clauses ++ ", " ++
        (if element.type_srid > 0 then toString element.type_srid else "4326") ++
        ")" := by
  have h : (_compile_GeomFromText_MsSql process element).1 =
      "geography::STGeomFromText(" ++ process element.clauses ++ ", " ++
        (if element.type_srid > 0 then toString element.type_srid else "4326") ++
        ")" := by
    by_cases hs : element.type_srid > 0 <;>
      simp only [_compile_GeomFromText_MsSql, if_pos, if_neg, hs, if_true,
        if_false, str_append_assoc] <;> rfl
  exact ⟨h, h⟩

/-- C3: under the mssql dialect, both from-binary functions render as
`geography::STGeomFromWKB(<compiled arguments>, <srid>)` when the
expression type's reference-system id is positive, and as the
two-argument form `geography::STGeomFromWKB(<compiled arguments>)` with
the srid omitted (never defaulted to 4326) otherwise. -/
theorem C3_fromwkb_renders_srid_or_omits (process : List Clause → String)
    (eid : String) (c : Clause) (rest : List Clause) (esrid : Int) :
    (∃ elem, _MSSQL_ST_GeomFromWKB process ⟨eid, c :: rest, esrid⟩ =
      some ((if esrid > 0 then
          "geography::STGeomFromWKB(" ++ process elem.clauses ++ ", " ++
            toString esrid ++ ")"
        else
          "geography::STGeomFromWKB(" ++ process elem.clauses ++ ")"), elem)) ∧
    (∃ elem, _MSSQL_ST_GeomFromEWKB process ⟨eid, c :: rest, esrid⟩ =
      some ((if esrid > 0 then
          "geography::STGeomFromWKB(" ++ process elem.clauses ++ ", " ++
            toString esrid ++ ")"
        else
          "geography::STGeomFromWKB(" ++ process elem.clauses ++ ")"), elem)) := by
  have h : ∃ elem, _compile_GeomFromWKB_MsSql process ⟨eid, c :: rest, esrid⟩ =
      some ((if esrid > 0 then
          "geography::STGeomFromWKB(" ++ process elem.clauses ++ ", " ++
            toString esrid ++ ")"
        else
          "geography::STGeomFromWKB(" ++ process elem.clauses ++ ")"), elem) := by
    cases hv : c.value with
    | pybytes d =>
      refine ⟨⟨"geography::STGeomFromWKB", c :: rest, esrid⟩, ?_⟩
      by_cases hs : esrid > 0 <;>
        simp only [_compile_GeomFromWKB_MsSql, hv, if_pos, if_neg, hs, if_true,
          if_false] <;> rfl
    | pymemoryview d =>
      refine ⟨⟨"geography::STGeomFromWKB", ⟨PyValue.pybytes d⟩ :: rest, esrid⟩, ?_⟩
      by_cases hs : esrid > 0 <;>
        simp only [_compile_GeomFromWKB_MsSql, hv, if_pos, if_neg, hs, if_true,
          if_false] <;> rfl
  exact ⟨h, h⟩

/-- C4: when the first argument of the from-binary rule is a mutable
byte-view (`memoryview`), it is replaced by the equivalent immutable
byte sequence before the arguments are compiled, and the whole
compilation result is identical to the one obtained from the same
content supplied as immutable bytes. -/
theorem C4_memoryview_normalized_and_equivalent
    (process : List Clause → String) (ident : String) (d : List Nat)
    (rest : List Clause) (srid : Int) :
    ((_compile_GeomFromWKB_MsSql process
        ⟨ident, ⟨PyValue.pymemoryview d⟩ :: rest, srid⟩).map
          (fun r => r.2.clauses)) = some (⟨PyValue.pybytes d⟩ :: rest) ∧
    _compile_GeomFromWKB_MsSql process
        ⟨ident, ⟨PyValue.pymemoryview d⟩ :: rest, srid⟩ =
      _compile_GeomFromWKB_MsSql process
        ⟨ident, ⟨PyValue.pybytes d⟩ :: rest, srid⟩ := by
  by_cases hs : srid > 0 <;>
    constructor <;>
      simp only [_compile_GeomFromWKB_MsSql, if_pos, if_neg, hs, if_true,
        if_false, Option.map_some] <;> rfl

/-- Helper: registering a mapping that never mentions `cls` leaves the
dispatch entry for `cls` unchanged. -/
theorem register_mssql_mapping_untouched (mapping : List (String × String))
    (reg : CompilerRegistry) (cls d : String)
    (hni : cls ∉ mapping.map Prod.fst) :
    register_mssql_mapping mapping reg cls d = reg cls d := by
  revert hni
  induction mapping generalizing reg with
  | nil => intro _; rfl
  | cons p ps ih =>
    intro hni
    have h1 : cls ≠ p.1 := fun h => hni (by simp [h])
    have h2 : cls ∉ ps.map Prod.fst := fun h => hni (by simp [h])
    show register_mssql_mapping ps (_compiles_mssql p.1 p.2 reg) cls d = reg cls d
    rw [ih (_compiles_mssql p.1 p.2 reg) h2]
    simp only [_compiles_mssql, compilesRegister]
    rw [if_neg (fun hand => h1 hand.1)]

/-- C5: for every entry `(cls, fn)` of a duplicate-free mapping passed
to `register_mssql_mapping`, subsequent mssql-dialect compilation of an
invocation of `cls` renders the parenthesized compiled arguments
followed by a call of the native method: `(<compiled args>).<fn>()`. -/
theorem C5_registered_mapping_renders_method_call
    (mapping : List (String × String)) (reg : CompilerRegistry)
    (cls fn args : String) (hmem : (cls, fn) ∈ mapping)
    (hnodup : (mapping.map Prod.fst).Nodup) :
    compileFunctionCall (register_mssql_mapping mapping reg) "mssql" cls args =
      some ("(" ++ args ++ ")." ++ fn ++ "()") := by
  revert hmem hnodup
  induction mapping generalizing reg with
  | nil => intro hmem _; exact absurd hmem (List.not_mem_nil _)
  | cons p ps ih =>
    intro hmem hnodup
    rcases List.mem_cons.mp hmem with heq | hmem'
    · cases heq
      have hni : cls ∉ ps.map Prod.fst := by
        rw [List.map_cons, List.nodup_cons] at hnodup
        exact hnodup.1
      show compileFunctionCall
        (register_mssql_mapping ps (_compiles_mssql cls fn reg)) "mssql" cls
        args = _
      simp only [compileFunctionCall]
      rw [register_mssql_mapping_untouched ps _ cls "mssql" hni]
      simp [_compiles_mssql, compilesRegister, _compile_mssql]
    · have htail : (ps.map Prod.fst).Nodup := by
        rw [List.map_cons, List.nodup_cons] at hnodup
        exact hnodup.2
      exact ih (_compiles_mssql p.1 p.2 reg) hmem' htail

/-- C5 witness: registering `ST_AsBinary ↦ STAsBinary` on an empty
dispatch table makes `ST_AsBinary(geom)` compile to
`(geom).STAsBinary()` under the mssql dialect. -/
theorem C5_witness :
    compileFunctionCall
        (register_mssql_mapping [("ST_AsBinary", "STAsBinary")]
          (fun _ _ => none)) "mssql" "ST_AsBinary" "geom" =
      some ("(" ++ "geom" ++ ")." ++ "STAsBinary" ++ "()") :=
  C5_registered_mapping_renders_method_call [("ST_AsBinary", "STAsBinary")]
    (fun _ _ => none) "ST_AsBinary" "STAsBinary" "geom" (by decide) (by decide)

end GeoAlchemy2.MsSql
